import Mathlib

/-!
# Verification of the video-generation orchestration layer of logo-holidays

Shallow embedding of the `GeminiVideoGenerator` class
(`src/shared/gemini-video-generator/GeminiVideoGenerator.ts`, provided as
`src/unnamed/part_010`), its configuration types
(`src/shared/gemini-video-generator/types.ts`), and the holiday-detail cache
(`src/lib/gemini-server.ts`).

Conventions of the embedding:
* JavaScript `number` millisecond times are `Nat`; wall-clock time advances
  only at the inter-poll sleep (network calls and callbacks are instantaneous).
* JavaScript truthiness of an optional string (`undefined` or `""` are falsy)
  is the `truthy` predicate; `a || b` on strings is `jsOr`, on numbers
  `jsOrNat` (0 is falsy).
* Thrown `Error` values become explicit outcome constructors carrying the
  interpolated message; the model additionally records the elapsed time at
  which an outcome was produced and the trace of provider polls and progress
  callbacks, so that temporal claims can be stated.
* The external provider is an oracle: a function from resolved model name to
  a submission reply, and a function from poll time to a `PollingStatus`
  (the network layer behind `checkStatus` is an `HttpReply` value).
-/

namespace LogoHolidays

/-- `GenerationStatus` from types.ts:
`'pending' | 'processing' | 'succeeded' | 'failed' | 'canceled'`. -/
inductive GenerationStatus where
  | pending
  | processing
  | succeeded
  | failed
  | canceled
deriving DecidableEq, Repr

/-- `OutputFormat` from types.ts: `'url' | 'base64' | 'blob'`. -/
inductive OutputFormat where
  | url
  | base64
  | blob
deriving DecidableEq, Repr

/-- `PollingStatus` interface from types.ts.  Every field except `status` is
optional in the source. -/
structure PollingStatus where
  status : GenerationStatus
  progress : Option Nat := none
  output : Option String := none
  error : Option String := none
  isOverloadError : Option Bool := none
deriving DecidableEq, Repr

/-- JavaScript truthiness of an optional string: `undefined` and `""` are
falsy, every other string is truthy. -/
def truthy : Option String → Bool
  | none => false
  | some s => !(s == "")

/-- JavaScript `o || d` for an optional string `o`: falsy (`undefined` or
`""`) falls back to `d`. -/
def jsOr (o : Option String) (d : String) : String :=
  match o with
  | none => d
  | some s => if s = "" then d else s

/-- JavaScript `n || d` for a number: `0` is falsy and falls back to `d`. -/
def jsOrNat (n : Nat) (d : Nat) : Nat :=
  if n = 0 then d else n

/-- `VideoGenerationConfig` interface from types.ts.  Optional fields are
`Option`; `none` is an absent key. -/
structure VideoGenerationConfig where
  apiKey : String
  model : Option String := none
  fallbackModels : Option (List String) := none
  maxPollingTime : Option Nat := none
  pollingInterval : Option Nat := none
  outputFormat : Option OutputFormat := none
  retryOnOverload : Option Bool := none
deriving DecidableEq, Repr

/-- The configuration after the `GeminiVideoGenerator` constructor has merged
the caller's config over the defaults
(`{maxPollingTime: 600000, pollingInterval: 5000, outputFormat: 'url',
model: 'veo-3.0-fast-generate-001', ...config}`). -/
structure ResolvedConfig where
  apiKey : String
  model : String
  fallbackModels : Option (List String)
  maxPollingTime : Nat
  pollingInterval : Nat
  outputFormat : OutputFormat
  retryOnOverload : Option Bool
deriving DecidableEq, Repr

/-- The constructor of `GeminiVideoGenerator` (part_010 lines 18-29): spread
of the caller's config over the documented defaults. -/
def resolveConfig (c : VideoGenerationConfig) : ResolvedConfig :=
  { apiKey := c.apiKey
    model := c.model.getD "veo-3.0-fast-generate-001"
    fallbackModels := c.fallbackModels
    maxPollingTime := c.maxPollingTime.getD 600000
    pollingInterval := c.pollingInterval.getD 5000
    outputFormat := c.outputFormat.getD OutputFormat.url
    retryOnOverload := c.retryOnOverload }

/-- The nested `operation` JSON returned by the status REST call.  The two
probed output locations
(`response.generateVideoResponse.generatedSamples[0].video.uri` and
`response.generatedVideos[0].video.uri`) are flattened to one optional string
each: `none` means some link of the optional chain is absent. -/
structure OperationResponse where
  done : Bool
  error : Option (Option String) := none
  samplesUri : Option String := none
  sdkUri : Option String := none
deriving DecidableEq, Repr

/-- The HTTP reply observed by `checkStatus`: the `response.ok` flag and, when
ok, the decoded operation JSON. -/
structure HttpReply where
  ok : Bool
  operation : OperationResponse
deriving DecidableEq, Repr

/-- `GeminiVideoGenerator.checkStatus` (part_010 lines 135-197), as a pure
function of the HTTP reply.  `r.operation.error = some m` models a present
`operation.error` object whose `message` field is `m` (itself optional); the
source then reports `operation.error.message || 'Generation failed'`. -/
def checkStatus (apiKey : String) (r : HttpReply) : PollingStatus :=
  if r.ok = false then
    { status := GenerationStatus.failed }
  else
    match r.operation.error with
    | some msg => { status := GenerationStatus.failed, error := some (jsOr msg "Generation failed") }
    | none =>
      if r.operation.done = true ∧ truthy r.operation.samplesUri = true then
        { status := GenerationStatus.succeeded
          output := some (r.operation.samplesUri.getD "" ++ ("&key=" ++ apiKey)) }
      else if r.operation.done = true ∧ truthy r.operation.sdkUri = true then
        { status := GenerationStatus.succeeded
          output := some (r.operation.sdkUri.getD "" ++ ("&key=" ++ apiKey)) }
      else if r.operation.done = true then
        { status := GenerationStatus.failed, error := some "No video URL in response" }
      else
        { status := GenerationStatus.processing }

/-! ## Base64 (the `btoa` encoding used by `processOutput`) -/

/-- The standard base64 alphabet used by `btoa`. -/
def b64Table : List Char :=
  "ABCDEFGHIJKLMNOPQRSTUVWXYZabcdefghijklmnopqrstuvwxyz0123456789+/".toList

/-- Character for a sextet value. -/
def b64Char (n : Nat) : Char := b64Table.getD n 'A'

/-- Sextet value of an alphabet character. -/
def b64Index (c : Char) : Nat := b64Table.indexOf c

/-- `btoa` of a byte sequence (the source first turns the bytes into a binary
string via `String.fromCharCode` and then calls `btoa`; the composite encodes
exactly the byte values). -/
def base64Encode : List Nat → List Char
  | [] => []
  | [a] => [b64Char (a / 4), b64Char (a % 4 * 16), '=', '=']
  | [a, b] => [b64Char (a / 4), b64Char (a % 4 * 16 + b / 16), b64Char (b % 16 * 4), '=']
  | a :: b :: c :: rest =>
      b64Char (a / 4) :: b64Char (a % 4 * 16 + b / 16) ::
        b64Char (b % 16 * 4 + c / 64) :: b64Char (c % 64) :: base64Encode rest

/-- Standard base64 decoding (the inverse direction a consumer of the data URL
applies, e.g. `atob`). -/
def base64Decode : List Char → List Nat
  | c1 :: c2 :: c3 :: c4 :: rest =>
      if c3 = '=' then
        [b64Index c1 * 4 + b64Index c2 / 16]
      else if c4 = '=' then
        [b64Index c1 * 4 + b64Index c2 / 16, b64Index c2 % 16 * 16 + b64Index c3 / 4]
      else
        (b64Index c1 * 4 + b64Index c2 / 16) ::
          (b64Index c2 % 16 * 16 + b64Index c3 / 4) ::
          (b64Index c3 % 4 * 64 + b64Index c4) :: base64Decode rest
  | _ => []

/-! ## Output materialization (`processOutput`) -/

/-- Result of a `fetch` of the artifact URL: the `ok` flag, the `statusText`,
and the body bytes. -/
structure FetchResult where
  ok : Bool
  statusText : String := ""
  bytes : List Nat := []
deriving DecidableEq, Repr

/-- The value `processOutput` hands back: a string (URL or data URL) or the
raw bytes of a blob. -/
inductive VideoOutput where
  | str (s : String)
  | blob (bytes : List Nat)
deriving DecidableEq, Repr

/-- `GeminiVideoGenerator.processOutput` (part_010 lines 202-252), restricted
to the string-typed outputs that are the only values `checkStatus` ever
produces (the `output instanceof Blob` branch is unreachable in this
program).  The second component counts the network fetches of the artifact
performed.  Errors (`throw new Error(...)`) are `Except.error` with the
interpolated message. -/
def processOutput (fmt : OutputFormat) (fetch : String → FetchResult) (output : String) :
    Except String VideoOutput × Nat :=
  if fmt = OutputFormat.url then
    (Except.ok (VideoOutput.str output), 0)
  else
    let r := fetch output
    if r.ok = false then
      (Except.error ("Failed to download video: " ++ r.statusText), 1)
    else if fmt = OutputFormat.blob then
      (Except.ok (VideoOutput.blob r.bytes), 1)
    else
      (Except.ok (VideoOutput.str ("data:video/mp4;base64," ++ String.mk (base64Encode r.bytes))), 1)

/-! ## The polling loop (`pollForCompletion`) -/

/-- Observable events of one run of the polling loop: a status poll issued at
an elapsed time, or an invocation of the caller's progress callback with the
status, the progress value, and the elapsed time. -/
inductive LoopEvent where
  | poll (t : Nat)
  | progress (st : PollingStatus) (p : Nat) (t : Nat)
deriving DecidableEq, Repr

/-- The message interpolated by the timeout throw (part_010 line 129). -/
def timeoutMessage (maxPollingTime : Nat) : String :=
  "Video generation timed out after " ++ toString (maxPollingTime / 1000) ++ " seconds"

/-- Terminal outcome of the polling loop.  Each constructor records the
elapsed time at which it was produced (model-level timing metadata; the
source throws/returns at that wall-clock instant). -/
inductive LoopOutcome where
  | success (output : String) (t : Nat)
  | genFailed (msg : String) (t : Nat)
  | cancelled (t : Nat)
  | timedOut (msg : String) (t : Nat)
  | outOfFuel
deriving DecidableEq, Repr

/-- Effective loop timing, after `this.config.maxPollingTime || 600000` and
`this.config.pollingInterval || 5000` (part_010 lines 84-85). -/
structure LoopConfig where
  maxPollingTime : Nat
  pollingInterval : Nat
deriving DecidableEq, Repr

/-- Whether the abort signal is set at elapsed time `now`, when cancellation
was requested at elapsed time `cancelAt` (if at all). -/
def isAborted (cancelAt : Option Nat) (now : Nat) : Bool :=
  match cancelAt with
  | none => false
  | some t => decide (t ≤ now)

/-- The elapsed time at which the current cycle's poll goes out: the source
sleeps `pollingInterval` before polling on every iteration except the first
(part_010 lines 96-99). -/
def pollTime (cfg : LoopConfig) (elapsed attempts : Nat) : Nat :=
  if 0 < attempts then elapsed + cfg.pollingInterval else elapsed

/-- One run of the `while` loop of `pollForCompletion` (part_010 lines
90-127), with explicit fuel.  `elapsed` is `Date.now() - startTime` at the
loop-head check; `attempts` is the source's counter (no sleep on the first
iteration).  `provider t` is the `PollingStatus` returned by the poll issued
at elapsed time `t`.  Returns the outcome together with the ordered event
trace. -/
def pollLoop (cfg : LoopConfig) (provider : Nat → PollingStatus) (cancelAt : Option Nat)
    (hasCallback : Bool) : Nat → Nat → Nat → LoopOutcome × List LoopEvent
  | 0, _, _ => (LoopOutcome.outOfFuel, [])
  | fuel + 1, elapsed, attempts =>
    if cfg.maxPollingTime ≤ elapsed then
      (LoopOutcome.timedOut (timeoutMessage cfg.maxPollingTime) elapsed, [])
    else if isAborted cancelAt elapsed = true then
      (LoopOutcome.cancelled elapsed, [])
    else
      let now := pollTime cfg elapsed attempts
      let st := provider now
      let prog := min 95 (now * 100 / cfg.maxPollingTime)
      let head := LoopEvent.poll now ::
        (if hasCallback then [LoopEvent.progress st prog now] else [])
      if st.status = GenerationStatus.succeeded ∧ truthy st.output = true then
        (LoopOutcome.success (st.output.getD "") now,
          head ++ (if hasCallback then [LoopEvent.progress st 100 now] else []))
      else if st.status = GenerationStatus.failed ∨ st.status = GenerationStatus.canceled then
        (LoopOutcome.genFailed (jsOr st.error "Video generation failed") now, head)
      else
        let r := pollLoop cfg provider cancelAt hasCallback fuel now (attempts + 1)
        (r.1, head ++ r.2)

/-- `GeminiVideoGenerator.pollForCompletion` (part_010 lines 79-130): the loop
started with `elapsed = 0`, `attempts = 0`, and enough fuel that (for a
positive polling interval) the fuel never runs out before the timeout
deadline. -/
def pollForCompletion (cfg : LoopConfig) (provider : Nat → PollingStatus)
    (cancelAt : Option Nat) (hasCallback : Bool) : LoopOutcome × List LoopEvent :=
  pollLoop cfg provider cancelAt hasCallback (cfg.maxPollingTime / cfg.pollingInterval + 3) 0 0

/-- A provider that never reaches a terminal state: every poll reports
`pending` or `processing`. -/
def neverTerminal (provider : Nat → PollingStatus) : Prop :=
  ∀ t, (provider t).status = GenerationStatus.pending ∨
    (provider t).status = GenerationStatus.processing

/-- A status poll issued at or after elapsed time `t0`. -/
def isLatePoll (t0 : Nat) : LoopEvent → Bool
  | LoopEvent.poll u => decide (t0 ≤ u)
  | _ => false

/-- A progress-callback invocation. -/
def isProgressEvent : LoopEvent → Bool
  | LoopEvent.progress _ _ _ => true
  | _ => false

/-! ## Submission and the `generate` composition -/

/-- Error thrown by the provider SDK on submission, with the overload-class
flag the spec's fallback policy would key on. -/
structure SubmitError where
  message : String
  isOverload : Bool
deriving DecidableEq, Repr

/-- Reply of `ai.models.generateVideos` for a given model: an error, or an
operation object whose `name` field is optional. -/
def SubmitReply := Except SubmitError (Option String)

/-- `GeminiVideoGenerator.startGeneration` (part_010 lines 48-74): submits
with the resolved primary model, throws `'No operation name returned from
Gemini'` when the returned name is falsy, and rethrows provider errors. -/
def startGeneration (rc : ResolvedConfig) (submit : String → SubmitReply) :
    Except SubmitError String :=
  match submit rc.model with
  | Except.error e => Except.error e
  | Except.ok name =>
      if truthy name = true then Except.ok (name.getD "")
      else Except.error { message := "No operation name returned from Gemini", isOverload := false }

/-- `GeminiVideoGenerator.generate` (part_010 lines 34-43): submit once, then
poll.  The second component is the list of models actually attempted by
submission, in order. -/
def generate (c : VideoGenerationConfig) (submit : String → SubmitReply)
    (provider : Nat → PollingStatus) (cancelAt : Option Nat) (hasCallback : Bool) :
    Except SubmitError (LoopOutcome × List LoopEvent) × List String :=
  let rc := resolveConfig c
  match startGeneration rc submit with
  | Except.error e => (Except.error e, [rc.model])
  | Except.ok _ =>
      (Except.ok (pollForCompletion
        { maxPollingTime := jsOrNat rc.maxPollingTime 600000
          pollingInterval := jsOrNat rc.pollingInterval 5000 }
        provider cancelAt hasCallback), [rc.model])

/-! ## The holiday-detail cache (`src/lib/gemini-server.ts`) -/

/-- `MAX_CACHE_SIZE` (gemini-server.ts line 17). -/
def MAX_CACHE_SIZE : Nat := 50

/-- `CACHE_TTL` (gemini-server.ts line 16). -/
def CACHE_TTL : Nat := 3600000

/-- The cache as the ordered entry list of a JavaScript `Map`: key and
insertion timestamp (the `data` payload is irrelevant to the claims). -/
abbrev Cache := List (String × Nat)

/-- The scan of `evictOldestCacheEntry` (gemini-server.ts lines 30-36):
fold over the entries keeping the best `(oldestKey, oldestTime)` pair,
starting from `(null, Date.now())`, updating on a strictly smaller
timestamp. -/
def scanOldest : List (String × Nat) → Option String × Nat → Option String × Nat
  | [], best => best
  | (k, ts) :: rest, best =>
      scanOldest rest (if ts < best.2 then (some k, ts) else best)

/-- `Map.set k ts`: replace in place when the key is present, else append. -/
def mapSet (k : String) (ts : Nat) (cache : Cache) : Cache :=
  if cache.any (fun e => e.1 == k) then
    cache.map (fun e => if e.1 == k then (k, ts) else e)
  else
    cache ++ [(k, ts)]

/-- `Map.delete k` (keys are unique in a `Map`, so filtering is the same as
removing the one entry). -/
def mapDelete (k : String) (cache : Cache) : Cache :=
  cache.filter (fun e => !(e.1 == k))

/-- `evictOldestCacheEntry` (gemini-server.ts lines 22-42), at current time
`now`: early return below capacity, otherwise delete the first entry whose
timestamp is strictly the smallest seen and strictly below `now`. -/
def evictOldestCacheEntry (now : Nat) (cache : Cache) : Cache :=
  if List.length cache < MAX_CACHE_SIZE then cache
  else
    match (scanOldest cache (none, now)).1 with
    | some k => mapDelete k cache
    | none => cache

/-- The insertion path of `getCachedOrFetchHolidayDetails` (gemini-server.ts
lines 59-68): after the fetch, evict (if at capacity) and then store the new
entry stamped `now`. -/
def cacheInsert (now : Nat) (k : String) (cache : Cache) : Cache :=
  mapSet k now (evictOldestCacheEntry now cache)

/-- `getCachedOrFetchHolidayDetails` cache effect (gemini-server.ts lines
47-72): a fresh hit leaves the cache unchanged; a miss or an expired entry
re-fetches and inserts. -/
def getCachedOrFetchHolidayDetails (now : Nat) (k : String) (cache : Cache) : Cache :=
  match cache.find? (fun e => e.1 == k) with
  | some e => if now - e.2 < CACHE_TTL then cache else cacheInsert now k cache
  | none => cacheInsert now k cache

/-! ## Helper lemmas -/

theorem truthy_iff (o : Option String) : truthy o = true ↔ ∃ s, o = some s ∧ s ≠ "" := by
  cases o with
  | none => simp [truthy]
  | some s =>
    simp only [truthy, Bool.not_eq_true', beq_eq_false_iff_ne, ne_eq]
    constructor
    · intro h
      exact ⟨s, rfl, h⟩
    · rintro ⟨u, hu, hne⟩
      cases hu
      exact hne

theorem jsOr_ne_empty (o : Option String) (d : String) (hd : d ≠ "") : jsOr o d ≠ "" := by
  cases o with
  | none => simpa [jsOr] using hd
  | some s =>
    by_cases hs : s = "" <;> simp [jsOr, hs, hd]

theorem append_ne_empty_right (a b : String) (hb : b ≠ "") : a ++ b ≠ "" := by
  intro h
  apply hb
  have hlen := congrArg String.length h
  rw [String.length_append] at hlen
  have h0 : ("" : String).length = 0 := rfl
  have :b.length = 0 := by omega
  cases b with
  | mk l =>
      cases l with
      | nil => rfl
      | cons c cs => simp [String.length, List.length] at this

theorem append_ne_empty_left (a b : String) (ha : a ≠ "") : a ++ b ≠ "" := by
  intro h
  apply ha
  have hlen := congrArg String.length h
  rw [String.length_append] at hlen
  have h0 : ("" : String).length = 0 := rfl
  have :a.length = 0 := by omega
  cases a with
  | mk l =>
      cases l with
      | nil => rfl
      | cons c cs => simp [String.length, List.length] at this

theorem key_suffix_ne_empty (uri apiKey : String) : uri ++ ("&key=" ++ apiKey) ≠ "" := by
  apply append_ne_empty_right
  apply append_ne_empty_left
  intro h
  exact absurd (congrArg String.length h) (by decide)

/-! ## C2: checkStatus success/failure payloads -/

/-- C2 counterexample: when the status HTTP request itself fails
(`!response.ok`, part_010 lines 146-149), `checkStatus` returns
`status = 'failed'` with **no** error message, refuting the claim that a
`failed` status always carries a non-empty error message. -/
theorem checkStatus_failed_without_message_cex :
    checkStatus "key" { ok := false, operation := { done := false } } =
      { status := GenerationStatus.failed } ∧
    (checkStatus "key" { ok := false, operation := { done := false } }).status =
      GenerationStatus.failed ∧
    (checkStatus "key" { ok := false, operation := { done := false } }).error = none :=
  ⟨rfl, rfl, rfl⟩

/-- C2 (amended): `checkStatus` never returns `succeeded` without a non-empty
output reference; and whenever the HTTP poll itself succeeded (`response.ok`),
a `failed` result always carries a non-empty error message.  (The only
uncovered case is the non-ok HTTP reply of the counterexample.) -/
theorem checkStatus_success_output_failure_message (apiKey : String) (r : HttpReply) :
    ((checkStatus apiKey r).status = GenerationStatus.succeeded →
      ∃ s, (checkStatus apiKey r).output = some s ∧ s ≠ "") ∧
    (r.ok = true → (checkStatus apiKey r).status = GenerationStatus.failed →
      ∃ m, (checkStatus apiKey r).error = some m ∧ m ≠ "") := by
  cases hok : r.ok with
  | false =>
      refine ⟨?_, ?_⟩
      · intro hs
        simp [checkStatus, hok] at hs
      · intro htrue
        exact absurd htrue (by simp)
  | true =>
      cases herr : r.operation.error with
      | some msg =>
          refine ⟨?_, ?_⟩
          · intro hs
            simp [checkStatus, hok, herr] at hs
          · intro _ _
            refine ⟨jsOr msg "Generation failed", ?_, jsOr_ne_empty _ _ (by decide)⟩
            simp [checkStatus, hok, herr]
      | none =>
          cases hdone : r.operation.done with
          | false =>
              refine ⟨?_, ?_⟩
              · intro hs
                simp [checkStatus, hok, herr, hdone] at hs
              · intro _ hf
                simp [checkStatus, hok, herr, hdone] at hf
          | true =>
              cases hs1 : truthy r.operation.samplesUri with
              | true =>
                  refine ⟨?_, ?_⟩
                  · intro _
                    refine ⟨r.operation.samplesUri.getD "" ++ ("&key=" ++ apiKey), ?_,
                      key_suffix_ne_empty _ _⟩
                    simp [checkStatus, hok, herr, hdone, hs1]
                  · intro _ hf
                    simp [checkStatus, hok, herr, hdone, hs1] at hf
              | false =>
                  cases hs2 : truthy r.operation.sdkUri with
                  | true =>
                      refine ⟨?_, ?_⟩
                      · intro _
                        refine ⟨r.operation.sdkUri.getD "" ++ ("&key=" ++ apiKey), ?_,
                          key_suffix_ne_empty _ _⟩
                        simp [checkStatus, hok, herr, hdone, hs1, hs2]
                      · intro _ hf
                        simp [checkStatus, hok, herr, hdone, hs1, hs2] at hf
                  | false =>
                      refine ⟨?_, ?_⟩
                      · intro hs
                        simp [checkStatus, hok, herr, hdone, hs1, hs2] at hs
                      · intro _ _
                        refine ⟨"No video URL in response", ?_, by decide⟩
                        simp [checkStatus, hok, herr, hdone, hs1, hs2]

/-- C2 witness: the amended theorem applied at two concrete provider replies,
one succeeding (non-empty output) and one completed-without-URL (non-empty
error message). -/
theorem checkStatus_success_output_failure_message_witness :
    (∃ s, (checkStatus "k"
      { ok := true, operation := { done := true, samplesUri := some "https://v" } }).output =
        some s ∧ s ≠ "") ∧
    (∃ m, (checkStatus "k"
      { ok := true, operation := { done := true } }).error = some m ∧ m ≠ "") :=
  ⟨(checkStatus_success_output_failure_message "k"
      { ok := true, operation := { done := true, samplesUri := some "https://v" } }).1 (by decide),
   (checkStatus_success_output_failure_message "k"
      { ok := true, operation := { done := true } }).2 rfl (by decide)⟩

/-! ## C8: ordered probing of output field paths -/

/-- C8: on a completed job (`done` and no provider error), `checkStatus`
probes the two known output paths in order
(`generateVideoResponse.generatedSamples[0].video.uri` first, then the SDK
path `generatedVideos[0].video.uri`), uses the first truthy (non-empty)
match, and if neither yields an output reference returns the terminal failure
`'No video URL in response'` — never a silent success and never a
still-running status. -/
theorem checkStatus_ordered_probe (apiKey : String) (r : HttpReply)
    (hok : r.ok = true) (herr : r.operation.error = none) (hdone : r.operation.done = true) :
    (truthy r.operation.samplesUri = true →
      checkStatus apiKey r =
        { status := GenerationStatus.succeeded
          output := some (r.operation.samplesUri.getD "" ++ ("&key=" ++ apiKey)) }) ∧
    (truthy r.operation.samplesUri = false → truthy r.operation.sdkUri = true →
      checkStatus apiKey r =
        { status := GenerationStatus.succeeded
          output := some (r.operation.sdkUri.getD "" ++ ("&key=" ++ apiKey)) }) ∧
    (truthy r.operation.samplesUri = false → truthy r.operation.sdkUri = false →
      checkStatus apiKey r =
        { status := GenerationStatus.failed, error := some "No video URL in response" }) := by
  refine ⟨?_, ?_, ?_⟩
  · intro h1
    simp [checkStatus, hok, herr, hdone, h1]
  · intro h1 h2
    simp [checkStatus, hok, herr, hdone, h1, h2]
  · intro h1 h2
    simp [checkStatus, hok, herr, hdone, h1, h2]

/-- C8 witness: the probe-order theorem applied at a concrete completed reply
carrying both candidate paths; the first path wins, and at a completed reply
with neither path, the malformed-response failure results. -/
theorem checkStatus_ordered_probe_witness :
    checkStatus "k"
      { ok := true
        operation := { done := true, samplesUri := some "https://a", sdkUri := some "https://b" } } =
      { status := GenerationStatus.succeeded, output := some ("https://a" ++ ("&key=" ++ "k")) } ∧
    checkStatus "k" { ok := true, operation := { done := true } } =
      { status := GenerationStatus.failed, error := some "No video URL in response" } :=
  ⟨(checkStatus_ordered_probe "k"
      { ok := true
        operation := { done := true, samplesUri := some "https://a", sdkUri := some "https://b" } }
      rfl rfl rfl).1 (by decide),
   ((checkStatus_ordered_probe "k" { ok := true, operation := { done := true } }
      rfl rfl rfl).2.2 (by decide) (by decide))⟩

/-! ## C10: the API key is appended to every successful output URL -/

/-- C10: every successful `checkStatus` result's output is not the provider's
raw video URI but that URI with `'&key=' ++ apiKey` appended (part_010 lines
168 and 179), so the credential is embedded in every artifact URL handed to
the caller. -/
theorem checkStatus_appends_api_key (apiKey : String) (r : HttpReply)
    (hs : (checkStatus apiKey r).status = GenerationStatus.succeeded) :
    ∃ uri, (r.operation.samplesUri = some uri ∨ r.operation.sdkUri = some uri) ∧
      (checkStatus apiKey r).output = some (uri ++ ("&key=" ++ apiKey)) := by
  cases hok : r.ok with
  | false => simp [checkStatus, hok] at hs
  | true =>
      cases herr : r.operation.error with
      | some msg => simp [checkStatus, hok, herr] at hs
      | none =>
          cases hdone : r.operation.done with
          | false => simp [checkStatus, hok, herr, hdone] at hs
          | true =>
              cases hs1 : truthy r.operation.samplesUri with
              | true =>
                  obtain ⟨s, hsome, hne⟩ := (truthy_iff _).mp hs1
                  have hts : truthy (some s) = true := by simp [truthy, hne]
                  refine ⟨s, Or.inl hsome, ?_⟩
                  simp [checkStatus, hok, herr, hdone, hsome, hts]
              | false =>
                  cases hs2 : truthy r.operation.sdkUri with
                  | true =>
                      obtain ⟨s, hsome, hne⟩ := (truthy_iff _).mp hs2
                      have hts : truthy (some s) = true := by simp [truthy, hne]
                      refine ⟨s, Or.inr hsome, ?_⟩
                      simp [checkStatus, hok, herr, hdone, hs1, hsome, hts]
                  | false => simp [checkStatus, hok, herr, hdone, hs1, hs2] at hs

/-- C10 witness: the key-appending theorem applied at a concrete successful
reply. -/
theorem checkStatus_appends_api_key_witness :
    ∃ uri,
      (({ done := true, samplesUri := some "https://v" } : OperationResponse).samplesUri = some uri ∨
       ({ done := true, samplesUri := some "https://v" } : OperationResponse).sdkUri = some uri) ∧
      (checkStatus "secret"
        { ok := true, operation := { done := true, samplesUri := some "https://v" } }).output =
        some (uri ++ ("&key=" ++ "secret")) :=
  checkStatus_appends_api_key "secret"
    { ok := true, operation := { done := true, samplesUri := some "https://v" } } (by decide)

/-! ## Base64 lemmas -/

theorem b64Table_length : b64Table.length = 64 := by decide

theorem b64_index_char : ∀ n, n < 64 → b64Index (b64Char n) = n := by decide

theorem b64Char_ne_pad (n : Nat) : b64Char n ≠ '=' := by
  by_cases h : n < 64
  · exact (by decide : ∀ m, m < 64 → b64Char m ≠ '=') n h
  · unfold b64Char
    rw [List.getD_eq_default]
    · decide
    · rw [b64Table_length]
      omega

theorem base64_roundtrip : ∀ bs : List Nat, (∀ b ∈ bs, b < 256) →
    base64Decode (base64Encode bs) = bs
  | [], _ => rfl
  | [a], h => by
      have ha : a < 256 := h a (by simp)
      have e1 : b64Index (b64Char (a / 4)) = a / 4 := b64_index_char _ (by omega)
      have e2 : b64Index (b64Char (a % 4 * 16)) = a % 4 * 16 := b64_index_char _ (by omega)
      simp only [base64Encode, base64Decode, if_true, e1, e2]
      try simp only [List.cons.injEq, and_true]
      all_goals first | trivial | omega
  | [a, b], h => by
      have ha : a < 256 := h a (by simp)
      have hb : b < 256 := h b (by simp)
      have e1 : b64Index (b64Char (a / 4)) = a / 4 := b64_index_char _ (by omega)
      have e2 : b64Index (b64Char (a % 4 * 16 + b / 16)) = a % 4 * 16 + b / 16 :=
        b64_index_char _ (by omega)
      have e3 : b64Index (b64Char (b % 16 * 4)) = b % 16 * 4 := b64_index_char _ (by omega)
      have h3 : b64Char (b % 16 * 4) ≠ '=' := b64Char_ne_pad _
      simp only [base64Encode, base64Decode, if_neg h3, if_true, e1, e2, e3]
      try simp only [List.cons.injEq, and_true]
      repeat' apply And.intro
      all_goals first | trivial | omega
  | a :: b :: c :: rest, h => by
      have ha : a < 256 := h a (by simp)
      have hb : b < 256 := h b (by simp)
      have hc : c < 256 := h c (by simp)
      have hrest : ∀ x ∈ rest, x < 256 := fun x hx => h x (by simp [hx])
      have ih := base64_roundtrip rest hrest
      have e1 : b64Index (b64Char (a / 4)) = a / 4 := b64_index_char _ (by omega)
      have e2 : b64Index (b64Char (a % 4 * 16 + b / 16)) = a % 4 * 16 + b / 16 :=
        b64_index_char _ (by omega)
      have e3 : b64Index (b64Char (b % 16 * 4 + c / 64)) = b % 16 * 4 + c / 64 :=
        b64_index_char _ (by omega)
      have e4 : b64Index (b64Char (c % 64)) = c % 64 := b64_index_char _ (by omega)
      have h3 : b64Char (b % 16 * 4 + c / 64) ≠ '=' := b64Char_ne_pad _
      have h4 : b64Char (c % 64) ≠ '=' := b64Char_ne_pad _
      simp only [base64Encode, base64Decode, if_neg h3, if_neg h4, e1, e2, e3, e4, ih]
      try simp only [List.cons.injEq, and_true]
      repeat' apply And.intro
      all_goals first | trivial | omega

/-! ## C7: output materialization -/

/-- C7: `processOutput` performs exactly one network fetch of the artifact,
and only when the requested output format is not `'url'`: under `'url'` the
provider URL is passed through unchanged with zero fetches; under any other
format exactly one fetch occurs; and under `'base64'` on a URL output the
result is the data URL whose base64 payload decodes back to exactly the bytes
a direct fetch of that URL returns. -/
theorem processOutput_single_fetch_roundtrip (fetch : String → FetchResult) (output : String) :
    processOutput OutputFormat.url fetch output = (Except.ok (VideoOutput.str output), 0) ∧
    (∀ fmt, fmt ≠ OutputFormat.url → (processOutput fmt fetch output).2 = 1) ∧
    ((fetch output).ok = true → (∀ b ∈ (fetch output).bytes, b < 256) →
      processOutput OutputFormat.base64 fetch output =
        (Except.ok (VideoOutput.str ("data:video/mp4;base64," ++
          String.mk (base64Encode (fetch output).bytes))), 1) ∧
      base64Decode (base64Encode (fetch output).bytes) = (fetch output).bytes) := by
  refine ⟨by simp [processOutput], ?_, ?_⟩
  · intro fmt hfmt
    simp only [processOutput, if_neg hfmt]
    by_cases hok : (fetch output).ok = false
    · simp [hok]
    · by_cases hblob : fmt = OutputFormat.blob
      · simp [hok, hblob]
      · simp [hok, hblob]
  · intro hok hbytes
    refine ⟨?_, base64_roundtrip _ hbytes⟩
    have hok' : (fetch output).ok = false ↔ False := by simp [hok]
    simp [processOutput, hok]

/-- C7 witness: the materialization theorem applied at a concrete fetch
oracle and URL: `'url'` passes through with zero fetches, `'base64'` fetches
once and its payload round-trips. -/
theorem processOutput_single_fetch_roundtrip_witness :
    processOutput OutputFormat.url (fun _ => { ok := true, bytes := [72, 105] }) "https://v" =
      (Except.ok (VideoOutput.str "https://v"), 0) ∧
    (processOutput OutputFormat.base64 (fun _ => { ok := true, bytes := [72, 105] })
      "https://v").2 = 1 ∧
    base64Decode (base64Encode
      ((fun (_ : String) => ({ ok := true, bytes := [72, 105] } : FetchResult)) "https://v").bytes) =
      [72, 105] :=
  ⟨(processOutput_single_fetch_roundtrip (fun _ => { ok := true, bytes := [72, 105] }) "https://v").1,
   (processOutput_single_fetch_roundtrip (fun _ => { ok := true, bytes := [72, 105] }) "https://v").2.1
     OutputFormat.base64 (by decide),
   ((processOutput_single_fetch_roundtrip (fun _ => { ok := true, bytes := [72, 105] }) "https://v").2.2
     rfl (by decide)).2⟩

/-! ## C1: the fallback chain is never consulted -/

/-- C1: evaluation of `generate` at the claim's scenario.  With
`retryOnOverload = true` and fallback chain `["B", "C"]`, when the primary
model `"A"` fails with an overload-class error while `"C"` would succeed, the
code makes exactly one submission attempt (model `"A"` only), propagates
`"A"`'s raw overload error, and never tries a fallback; the all-overload
scenario ends the same way (one attempt, the raw error — no aggregated
exhaustion error exists in the code).  `generate`/`startGeneration`
(part_010 lines 34-74) never read `fallbackModels` or `retryOnOverload`. -/
theorem generate_ignores_fallback_chain :
    generate
      { apiKey := "k", model := some "A", fallbackModels := some ["B", "C"],
        retryOnOverload := some true }
      (fun m =>
        if m = "A" ∨ m = "B" then
          Except.error { message := "The model is overloaded", isOverload := true }
        else Except.ok (some "operations/c1"))
      (fun _ => { status := GenerationStatus.processing }) none false =
      (Except.error { message := "The model is overloaded", isOverload := true }, ["A"]) ∧
    generate
      { apiKey := "k", model := some "A", fallbackModels := some ["B", "C"],
        retryOnOverload := some true }
      (fun _ => Except.error { message := "The model is overloaded", isOverload := true })
      (fun _ => { status := GenerationStatus.processing }) none false =
      (Except.error { message := "The model is overloaded", isOverload := true }, ["A"]) :=
  ⟨rfl, rfl⟩

/-! ## C9: cache lemmas -/

theorem mapSet_length (k : String) (ts : Nat) (cache : Cache) :
    (mapSet k ts cache).length =
      if cache.any (fun e => e.1 == k) then cache.length else cache.length + 1 := by
  unfold mapSet
  split_ifs <;> simp

theorem scanOldest_some_stays :
    ∀ (entries : List (String × Nat)) (best : Option String × Nat) (k0 : String),
      best.1 = some k0 → (scanOldest entries best).1 ≠ none := by
  intro entries
  induction entries with
  | nil =>
      intro best k0 hb
      simp [scanOldest, hb]
  | cons e rest ih =>
      intro best k0 hb
      simp only [scanOldest]
      by_cases hlt : e.2 < best.2
      · rw [if_pos hlt]
        exact ih (some e.1, e.2) e.1 (by simp)
      · rw [if_neg hlt]
        exact ih best k0 hb

theorem scanOldest_none :
    ∀ (entries : List (String × Nat)) (best : Option String × Nat),
      (scanOldest entries best).1 = none →
      best.1 = none ∧ ∀ p ∈ entries, ¬ p.2 < best.2 := by
  intro entries
  induction entries with
  | nil =>
      intro best h
      simpa [scanOldest] using h
  | cons e rest ih =>
      intro best h
      simp only [scanOldest] at h
      by_cases hlt : e.2 < best.2
      · rw [if_pos hlt] at h
        exact absurd h (scanOldest_some_stays rest (some e.1, e.2) e.1 rfl)
      · rw [if_neg hlt] at h
        obtain ⟨hb, hall⟩ := ih best h
        refine ⟨hb, ?_⟩
        intro p hp
        rcases List.mem_cons.mp hp with hpe | hpr
        · rw [hpe]; exact hlt
        · exact hall p hpr

theorem scanOldest_key_mem :
    ∀ (entries : List (String × Nat)) (best : Option String × Nat) (k : String),
      (scanOldest entries best).1 = some k →
      (∃ ts, (k, ts) ∈ entries) ∨ best.1 = some k := by
  intro entries
  induction entries with
  | nil =>
      intro best k h
      right
      simpa [scanOldest] using h
  | cons e rest ih =>
      intro best k h
      simp only [scanOldest] at h
      by_cases hlt : e.2 < best.2
      · rw [if_pos hlt] at h
        rcases ih (some e.1, e.2) k h with ⟨ts, hts⟩ | hbest
        · exact Or.inl ⟨ts, List.mem_cons_of_mem _ hts⟩
        · left
          refine ⟨e.2, ?_⟩
          have : e.1 = k := by simpa using hbest
          rw [← this]
          exact List.mem_cons_self _ _
      · rw [if_neg hlt] at h
        rcases ih best k h with ⟨ts, hts⟩ | hbest
        · exact Or.inl ⟨ts, List.mem_cons_of_mem _ hts⟩
        · exact Or.inr hbest

theorem mapDelete_length_lt :
    ∀ (cache : Cache) (k : String) (ts : Nat), (k, ts) ∈ cache →
      (mapDelete k cache).length < cache.length := by
  intro cache
  induction cache with
  | nil => intro k ts h; simp at h
  | cons e rest ih =>
      intro k ts h
      unfold mapDelete
      rw [List.filter_cons]
      by_cases hek : e.1 == k
      · have hne : (!(e.1 == k)) = false := by simp [hek]
        simp only [hne, Bool.false_eq_true, if_false, List.length_cons]
        have hle := List.length_filter_le (fun p => !(p.1 == k)) rest
        omega
      · have hyes : (!(e.1 == k)) = true := by simp_all
        simp only [hyes, eq_self_iff_true, if_true, List.length_cons]
        have hmem : (k, ts) ∈ rest := by
          rcases List.mem_cons.mp h with he | hr
          · exfalso
            apply hek
            rw [← he] at hek ⊢
            simp
          · exact hr
        have hlt := ih k ts hmem
        unfold mapDelete at hlt
        omega

set_option maxRecDepth 20000 in
/-- C9 counterexample: starting from the empty cache, 51 insertions that all
carry the same timestamp (possible when `Date.now()` does not advance between
inserts) leave the cache with 51 entries — above the configured maximum of
50 — because `evictOldestCacheEntry` only selects entries with a timestamp
strictly below the current time. -/
theorem cache_capacity_exceeded_cex :
    MAX_CACHE_SIZE <
      (((List.range 51).map (fun i => toString i)).foldl
        (fun c k => cacheInsert 0 k c) ([] : Cache)).length := by
  decide

/-- C9 (amended): the eviction step runs before every insert and, provided
every insertion carries a timestamp strictly newer than all cached entries
(as when the clock strictly advances between inserts), it removes an
oldest-timestamp entry when at capacity, so the cache size stays at most
`MAX_CACHE_SIZE` (50). -/
theorem cacheInsert_bounded (now : Nat) (k : String) (cache : Cache)
    (hts : ∀ p ∈ cache, p.2 < now) (hlen : cache.length ≤ MAX_CACHE_SIZE) :
    (cacheInsert now k cache).length ≤ MAX_CACHE_SIZE := by
  unfold cacheInsert evictOldestCacheEntry
  by_cases hfull : cache.length < MAX_CACHE_SIZE
  · rw [if_pos hfull, mapSet_length]
    split_ifs <;> omega
  · rw [if_neg hfull]
    have hlen50 : cache.length = MAX_CACHE_SIZE := by omega
    obtain ⟨e, he⟩ : ∃ e, e ∈ cache := by
      cases cache with
      | nil => simp [MAX_CACHE_SIZE] at hlen50
      | cons e rest => exact ⟨e, List.mem_cons_self _ _⟩
    cases hscan : (scanOldest cache (none, now)).1 with
    | none =>
        exfalso
        obtain ⟨_, hall⟩ := scanOldest_none cache (none, now) hscan
        exact hall e he (hts e he)
    | some k0 =>
        rcases scanOldest_key_mem cache (none, now) k0 hscan with ⟨ts0, hmem⟩ | hbest
        · have hdel := mapDelete_length_lt cache k0 ts0 hmem
          have hred : (match (some k0 : Option String) with
              | some k => mapDelete k cache
              | none => cache) = mapDelete k0 cache := rfl
          rw [hred, mapSet_length]
          split_ifs <;> omega
        · simp at hbest

/-- C9 witness: the bounded-insert theorem applied at a concrete cache whose
single entry is strictly older than the insertion time. -/
theorem cacheInsert_bounded_witness :
    (cacheInsert 5 "a" [("b", 1)]).length ≤ MAX_CACHE_SIZE :=
  cacheInsert_bounded 5 "a" [("b", 1)] (by decide) (by decide)

/-! ## C4 counterexample and C6 scenario computations -/

/-- C4 counterexample: with a 5000 ms polling interval, cancellation
requested at t = 2500 (during the first inter-poll sleep) still lets the poll
at t = 5000 go out — a status poll issued after the cancellation request —
because the abort check sits at the top of the cycle, before the sleep, and
is not repeated between sleep and poll; the loop then raises at t = 5000. -/
theorem cancel_poll_after_request_cex :
    pollForCompletion { maxPollingTime := 20000, pollingInterval := 5000 }
      (fun _ => { status := GenerationStatus.processing }) (some 2500) false =
      (LoopOutcome.cancelled 5000, [LoopEvent.poll 0, LoopEvent.poll 5000]) ∧
    2500 ≤ 5000 :=
  ⟨rfl, by decide⟩

/-- C6 counterexample: in the spec's scenario (`maxPollingTime = 20000`,
`pollingInterval = 5000`, provider `processing` at t = 0, 5, 10 s and
`succeeded` with a URL at t = 15 s) the progress callback is invoked five
times, not four: the success cycle invokes it twice (estimate 75, then the
forced 100). -/
theorem scenario_callback_count_cex :
    ((pollForCompletion { maxPollingTime := 20000, pollingInterval := 5000 }
        (fun t => if t < 15000 then { status := GenerationStatus.processing }
          else { status := GenerationStatus.succeeded, output := some "https://video/v.mp4" })
        none true).2.filter isProgressEvent).length = 5 ∧
    ((pollForCompletion { maxPollingTime := 20000, pollingInterval := 5000 }
        (fun t => if t < 15000 then { status := GenerationStatus.processing }
          else { status := GenerationStatus.succeeded, output := some "https://video/v.mp4" })
        none true).2.filter isProgressEvent).length ≠ 4 := by
  refine ⟨?_, ?_⟩ <;> decide

/-- C6 (amended): the exact trace of the scenario — polls at t = 0, 5000,
10000, 15000; five callback invocations carrying estimates 0, 25, 50, 75 and
the final forced 100 at the success poll; the loop returns the provider's
URL, and under the `'url'` output format `processOutput` passes that URL
through unchanged (zero artifact fetches). -/
theorem scenario_trace_exact :
    pollForCompletion { maxPollingTime := 20000, pollingInterval := 5000 }
      (fun t => if t < 15000 then { status := GenerationStatus.processing }
        else { status := GenerationStatus.succeeded, output := some "https://video/v.mp4" })
      none true =
      (LoopOutcome.success "https://video/v.mp4" 15000,
       [LoopEvent.poll 0,
        LoopEvent.progress { status := GenerationStatus.processing } 0 0,
        LoopEvent.poll 5000,
        LoopEvent.progress { status := GenerationStatus.processing } 25 5000,
        LoopEvent.poll 10000,
        LoopEvent.progress { status := GenerationStatus.processing } 50 10000,
        LoopEvent.poll 15000,
        LoopEvent.progress
          { status := GenerationStatus.succeeded, output := some "https://video/v.mp4" } 75 15000,
        LoopEvent.progress
          { status := GenerationStatus.succeeded, output := some "https://video/v.mp4" } 100 15000]) ∧
    processOutput OutputFormat.url (fun _ => { ok := true }) "https://video/v.mp4" =
      (Except.ok (VideoOutput.str "https://video/v.mp4"), 0) :=
  ⟨rfl, rfl⟩

/-! ## Step lemmas for the polling loop -/

theorem pollLoop_succ_timeout (cfg : LoopConfig) (provider : Nat → PollingStatus)
    (cancelAt : Option Nat) (hasCb : Bool) (fuel elapsed attempts : Nat)
    (h1 : cfg.maxPollingTime ≤ elapsed) :
    pollLoop cfg provider cancelAt hasCb (fuel + 1) elapsed attempts =
      (LoopOutcome.timedOut (timeoutMessage cfg.maxPollingTime) elapsed, []) := by
  simp [pollLoop, h1]

theorem pollLoop_succ_cancel (cfg : LoopConfig) (provider : Nat → PollingStatus)
    (cancelAt : Option Nat) (hasCb : Bool) (fuel elapsed attempts : Nat)
    (h1 : ¬ cfg.maxPollingTime ≤ elapsed) (h2 : isAborted cancelAt elapsed = true) :
    pollLoop cfg provider cancelAt hasCb (fuel + 1) elapsed attempts =
      (LoopOutcome.cancelled elapsed, []) := by
  simp [pollLoop, h1, h2]

theorem pollLoop_succ_success (cfg : LoopConfig) (provider : Nat → PollingStatus)
    (cancelAt : Option Nat) (hasCb : Bool) (fuel elapsed attempts : Nat)
    (h1 : ¬ cfg.maxPollingTime ≤ elapsed) (h2 : ¬ isAborted cancelAt elapsed = true)
    (h3 : (provider (pollTime cfg elapsed attempts)).status = GenerationStatus.succeeded ∧
      truthy (provider (pollTime cfg elapsed attempts)).output = true) :
    pollLoop cfg provider cancelAt hasCb (fuel + 1) elapsed attempts =
      (LoopOutcome.success ((provider (pollTime cfg elapsed attempts)).output.getD "")
          (pollTime cfg elapsed attempts),
        (LoopEvent.poll (pollTime cfg elapsed attempts) ::
          (if hasCb then
            [LoopEvent.progress (provider (pollTime cfg elapsed attempts))
              (min 95 (pollTime cfg elapsed attempts * 100 / cfg.maxPollingTime))
              (pollTime cfg elapsed attempts)]
          else [])) ++
          (if hasCb then
            [LoopEvent.progress (provider (pollTime cfg elapsed attempts)) 100
              (pollTime cfg elapsed attempts)]
          else [])) := by
  simp [pollLoop, h1, h2, h3]

theorem pollLoop_succ_failure (cfg : LoopConfig) (provider : Nat → PollingStatus)
    (cancelAt : Option Nat) (hasCb : Bool) (fuel elapsed attempts : Nat)
    (h1 : ¬ cfg.maxPollingTime ≤ elapsed) (h2 : ¬ isAborted cancelAt elapsed = true)
    (h3 : ¬ ((provider (pollTime cfg elapsed attempts)).status = GenerationStatus.succeeded ∧
      truthy (provider (pollTime cfg elapsed attempts)).output = true))
    (h4 : (provider (pollTime cfg elapsed attempts)).status = GenerationStatus.failed ∨
      (provider (pollTime cfg elapsed attempts)).status = GenerationStatus.canceled) :
    pollLoop cfg provider cancelAt hasCb (fuel + 1) elapsed attempts =
      (LoopOutcome.genFailed (jsOr (provider (pollTime cfg elapsed attempts)).error
          "Video generation failed") (pollTime cfg elapsed attempts),
        LoopEvent.poll (pollTime cfg elapsed attempts) ::
          (if hasCb then
            [LoopEvent.progress (provider (pollTime cfg elapsed attempts))
              (min 95 (pollTime cfg elapsed attempts * 100 / cfg.maxPollingTime))
              (pollTime cfg elapsed attempts)]
          else [])) := by
  simp [pollLoop, h1, h2, h3, h4]

theorem pollLoop_succ_continue (cfg : LoopConfig) (provider : Nat → PollingStatus)
    (cancelAt : Option Nat) (hasCb : Bool) (fuel elapsed attempts : Nat)
    (h1 : ¬ cfg.maxPollingTime ≤ elapsed) (h2 : ¬ isAborted cancelAt elapsed = true)
    (h3 : ¬ ((provider (pollTime cfg elapsed attempts)).status = GenerationStatus.succeeded ∧
      truthy (provider (pollTime cfg elapsed attempts)).output = true))
    (h4 : ¬ ((provider (pollTime cfg elapsed attempts)).status = GenerationStatus.failed ∨
      (provider (pollTime cfg elapsed attempts)).status = GenerationStatus.canceled)) :
    pollLoop cfg provider cancelAt hasCb (fuel + 1) elapsed attempts =
      ((pollLoop cfg provider cancelAt hasCb fuel (pollTime cfg elapsed attempts)
          (attempts + 1)).1,
        (LoopEvent.poll (pollTime cfg elapsed attempts) ::
          (if hasCb then
            [LoopEvent.progress (provider (pollTime cfg elapsed attempts))
              (min 95 (pollTime cfg elapsed attempts * 100 / cfg.maxPollingTime))
              (pollTime cfg elapsed attempts)]
          else [])) ++
          (pollLoop cfg provider cancelAt hasCb fuel (pollTime cfg elapsed attempts)
            (attempts + 1)).2) := by
  simp [pollLoop, h1, h2, h3, h4]

/-- When the provider never reports a terminal status, neither the success
nor the failure branch of the loop body can fire. -/
theorem neverTerminal_branches (provider : Nat → PollingStatus)
    (hnt : neverTerminal provider) (u : Nat) :
    ¬ ((provider u).status = GenerationStatus.succeeded ∧ truthy (provider u).output = true) ∧
    ¬ ((provider u).status = GenerationStatus.failed ∨
      (provider u).status = GenerationStatus.canceled) := by
  rcases hnt u with hP | hP <;> rw [hP] <;> exact ⟨by simp, by simp⟩

/-! ## C5: progress values -/

theorem pollLoop_progress_events (cfg : LoopConfig) (provider : Nat → PollingStatus)
    (cancelAt : Option Nat) (hasCb : Bool) :
    ∀ (fuel elapsed attempts : Nat) (ev : LoopEvent),
      ev ∈ (pollLoop cfg provider cancelAt hasCb fuel elapsed attempts).2 →
      ∀ st p t, ev = LoopEvent.progress st p t →
        (p = min 95 (t * 100 / cfg.maxPollingTime) ∧ p ≤ 95) ∨
        (p = 100 ∧ st.status = GenerationStatus.succeeded ∧ truthy st.output = true) := by
  intro fuel
  induction fuel with
  | zero =>
      intro elapsed attempts ev hev
      simp [pollLoop] at hev
  | succ fuel ih =>
      intro elapsed attempts ev hev st p t hevp
      subst hevp
      by_cases h1 : cfg.maxPollingTime ≤ elapsed
      · rw [pollLoop_succ_timeout cfg provider cancelAt hasCb fuel elapsed attempts h1] at hev
        simp at hev
      · by_cases h2 : isAborted cancelAt elapsed = true
        · rw [pollLoop_succ_cancel cfg provider cancelAt hasCb fuel elapsed attempts h1 h2] at hev
          simp at hev
        · by_cases h3 : (provider (pollTime cfg elapsed attempts)).status =
              GenerationStatus.succeeded ∧
              truthy (provider (pollTime cfg elapsed attempts)).output = true
          · rw [pollLoop_succ_success cfg provider cancelAt hasCb fuel elapsed attempts
              h1 h2 h3] at hev
            cases hasCb with
            | false => simp at hev
            | true =>
                simp at hev
                rcases hev with ⟨hst, hp, ht⟩ | ⟨hst, hp, ht⟩ <;> subst_vars
                · exact Or.inl ⟨rfl, Nat.min_le_left _ _⟩
                · exact Or.inr ⟨rfl, h3.1, h3.2⟩
          · by_cases h4 : (provider (pollTime cfg elapsed attempts)).status =
                GenerationStatus.failed ∨
                (provider (pollTime cfg elapsed attempts)).status = GenerationStatus.canceled
            · rw [pollLoop_succ_failure cfg provider cancelAt hasCb fuel elapsed attempts
                h1 h2 h3 h4] at hev
              cases hasCb with
              | false => simp at hev
              | true =>
                  simp at hev
                  rcases hev with ⟨hst, hp, ht⟩
                  subst_vars
                  exact Or.inl ⟨rfl, Nat.min_le_left _ _⟩
            · rw [pollLoop_succ_continue cfg provider cancelAt hasCb fuel elapsed attempts
                h1 h2 h3 h4] at hev
              cases hasCb with
              | false =>
                  simp at hev
                  exact ih _ _ _ hev st p t rfl
              | true =>
                  simp at hev
                  rcases hev with ⟨hst, hp, ht⟩ | hrec
                  · subst_vars
                    exact Or.inl ⟨rfl, Nat.min_le_left _ _⟩
                  · exact ih _ _ _ hrec st p t rfl

/-- C5: in every event trace of `pollForCompletion`, a callback's progress
value is either the estimate `min 95 (elapsed * 100 / maxPollingTime)`
(integer division is the source's `Math.floor`), which is at most 95 and so
never 100, or it is exactly 100 and its status is a confirmed success
(`succeeded` with a truthy output); hence 100 is never reported before a
succeeded status is observed. -/
theorem progress_never_100_before_success (cfg : LoopConfig) (provider : Nat → PollingStatus)
    (cancelAt : Option Nat) (hasCallback : Bool) (ev : LoopEvent)
    (hev : ev ∈ (pollForCompletion cfg provider cancelAt hasCallback).2)
    (st : PollingStatus) (p t : Nat) (hevp : ev = LoopEvent.progress st p t) :
    (p = min 95 (t * 100 / cfg.maxPollingTime) ∧ p ≤ 95) ∨
    (p = 100 ∧ st.status = GenerationStatus.succeeded ∧ truthy st.output = true) :=
  pollLoop_progress_events cfg provider cancelAt hasCallback _ 0 0 ev hev st p t hevp

/-- C5 witness: the progress theorem applied at a concrete trace event (the
t = 0 callback of the scenario provider). -/
theorem progress_never_100_before_success_witness :
    ((0 : Nat) = min 95 (0 * 100 / 20000) ∧ (0 : Nat) ≤ 95) ∨
    ((0 : Nat) = 100 ∧
      ({ status := GenerationStatus.processing } : PollingStatus).status =
        GenerationStatus.succeeded ∧
      truthy ({ status := GenerationStatus.processing } : PollingStatus).output = true) :=
  progress_never_100_before_success { maxPollingTime := 20000, pollingInterval := 5000 }
    (fun t => if t < 15000 then { status := GenerationStatus.processing }
      else { status := GenerationStatus.succeeded, output := some "https://video/v.mp4" })
    none true (LoopEvent.progress { status := GenerationStatus.processing } 0 0)
    (by decide) { status := GenerationStatus.processing } 0 0 rfl

/-! ## C3: timeout window -/

theorem pollLoop_timeout_reaches (cfg : LoopConfig) (provider : Nat → PollingStatus)
    (hasCb : Bool) (hi : 0 < cfg.pollingInterval) (hnt : neverTerminal provider) :
    ∀ fuel elapsed attempts,
      elapsed < cfg.maxPollingTime + cfg.pollingInterval →
      cfg.maxPollingTime + cfg.pollingInterval +
          (if attempts = 0 then cfg.pollingInterval else 0) ≤
        elapsed + fuel * cfg.pollingInterval →
      ∃ e, (pollLoop cfg provider none hasCb fuel elapsed attempts).1 =
          LoopOutcome.timedOut (timeoutMessage cfg.maxPollingTime) e ∧
        cfg.maxPollingTime ≤ e ∧ e < cfg.maxPollingTime + cfg.pollingInterval := by
  intro fuel
  induction fuel with
  | zero =>
      intro elapsed attempts hlt hfuel
      exfalso
      split_ifs at hfuel <;> omega
  | succ fuel ih =>
      intro elapsed attempts hlt hfuel
      by_cases h1 : cfg.maxPollingTime ≤ elapsed
      · refine ⟨elapsed, ?_, h1, hlt⟩
        rw [pollLoop_succ_timeout cfg provider none hasCb fuel elapsed attempts h1]
      · have h2 : ¬ isAborted none elapsed = true := by simp [isAborted]
        obtain ⟨h3, h4⟩ := neverTerminal_branches provider hnt (pollTime cfg elapsed attempts)
        have hstep := pollLoop_succ_continue cfg provider none hasCb fuel elapsed attempts
          h1 h2 h3 h4
        simp only [hstep]
        have hmul : (fuel + 1) * cfg.pollingInterval =
            fuel * cfg.pollingInterval + cfg.pollingInterval := by ring
        rw [hmul] at hfuel
        by_cases ha : 0 < attempts
        · have hpt : pollTime cfg elapsed attempts = elapsed + cfg.pollingInterval := by
            simp [pollTime, ha]
          rw [hpt]
          apply ih
          · omega
          · rw [if_neg (by omega : ¬ attempts = 0)] at hfuel
            rw [if_neg (by omega : ¬ attempts + 1 = 0)]
            omega
        · have hpt : pollTime cfg elapsed attempts = elapsed := by
            simp [pollTime, ha]
          rw [hpt]
          apply ih
          · omega
          · rw [if_pos (by omega : attempts = 0)] at hfuel
            rw [if_neg (by omega : ¬ attempts + 1 = 0)]
            omega

/-- C3: for a provider that never reaches a terminal status and a positive
polling interval, `pollForCompletion` raises the timeout error whose message
interpolates the configured budget (`maxPollingTime / 1000` seconds), at an
elapsed time `e` with `maxPollingTime ≤ e < maxPollingTime +
pollingInterval`: never before the budget, and within one polling interval
after it. -/
theorem pollForCompletion_timeout_window (cfg : LoopConfig) (provider : Nat → PollingStatus)
    (hasCallback : Bool) (hi : 0 < cfg.pollingInterval) (hnt : neverTerminal provider) :
    ∃ e, (pollForCompletion cfg provider none hasCallback).1 =
        LoopOutcome.timedOut (timeoutMessage cfg.maxPollingTime) e ∧
      cfg.maxPollingTime ≤ e ∧ e < cfg.maxPollingTime + cfg.pollingInterval := by
  unfold pollForCompletion
  apply pollLoop_timeout_reaches cfg provider hasCallback hi hnt
  · omega
  · have hdm := Nat.div_add_mod cfg.maxPollingTime cfg.pollingInterval
    have hmod := Nat.mod_lt cfg.maxPollingTime hi
    have hexp : (cfg.maxPollingTime / cfg.pollingInterval + 3) * cfg.pollingInterval =
        cfg.pollingInterval * (cfg.maxPollingTime / cfg.pollingInterval) +
          3 * cfg.pollingInterval := by ring
    rw [hexp]
    split_ifs <;> omega

/-- C3 witness: the timeout theorem applied at the concrete configuration
`maxPollingTime = 20000`, `pollingInterval = 5000` with an always-processing
provider. -/
theorem pollForCompletion_timeout_window_witness :
    ∃ e, (pollForCompletion { maxPollingTime := 20000, pollingInterval := 5000 }
        (fun _ => { status := GenerationStatus.processing }) none false).1 =
        LoopOutcome.timedOut (timeoutMessage 20000) e ∧
      20000 ≤ e ∧ e < 20000 + 5000 :=
  pollForCompletion_timeout_window { maxPollingTime := 20000, pollingInterval := 5000 }
    (fun _ => { status := GenerationStatus.processing }) false (by decide)
    (fun _ => Or.inr rfl)

/-! ## C4 (amended): prompt cancellation -/

theorem pollLoop_cancel_reaches (cfg : LoopConfig) (provider : Nat → PollingStatus)
    (hasCb : Bool) (t0 : Nat) (hi : 0 < cfg.pollingInterval) (hnt : neverTerminal provider)
    (hbudget : t0 + cfg.pollingInterval ≤ cfg.maxPollingTime) :
    ∀ fuel elapsed attempts,
      elapsed < t0 →
      t0 + cfg.pollingInterval + (if attempts = 0 then cfg.pollingInterval else 0) ≤
        elapsed + fuel * cfg.pollingInterval →
      ∃ e, (pollLoop cfg provider (some t0) hasCb fuel elapsed attempts).1 =
          LoopOutcome.cancelled e ∧ t0 ≤ e ∧ e < t0 + cfg.pollingInterval ∧
        ((pollLoop cfg provider (some t0) hasCb fuel elapsed attempts).2.filter
          (isLatePoll t0)).length ≤ 1 := by
  intro fuel
  induction fuel with
  | zero =>
      intro elapsed attempts hel hfuel
      exfalso
      split_ifs at hfuel <;> omega
  | succ fuel ih =>
      intro elapsed attempts hel hfuel
      have h1 : ¬ cfg.maxPollingTime ≤ elapsed := by omega
      have h2 : ¬ isAborted (some t0) elapsed = true := by
        simp only [isAborted, decide_eq_true_eq]
        omega
      obtain ⟨h3, h4⟩ := neverTerminal_branches provider hnt (pollTime cfg elapsed attempts)
      have hstep := pollLoop_succ_continue cfg provider (some t0) hasCb fuel elapsed attempts
        h1 h2 h3 h4
      simp only [hstep]
      have hmul : (fuel + 1) * cfg.pollingInterval =
          fuel * cfg.pollingInterval + cfg.pollingInterval := by ring
      rw [hmul] at hfuel
      by_cases ha : 0 < attempts
      · have hpt : pollTime cfg elapsed attempts = elapsed + cfg.pollingInterval := by
          simp [pollTime, ha]
        rw [hpt]
        by_cases hA : t0 ≤ elapsed + cfg.pollingInterval
        · cases fuel with
          | zero =>
              exfalso
              split_ifs at hfuel <;> omega
          | succ g =>
              have hcstep := pollLoop_succ_cancel cfg provider (some t0) hasCb g
                (elapsed + cfg.pollingInterval) (attempts + 1) (by omega)
                (by simp only [isAborted, decide_eq_true_eq]; omega)
              simp only [hcstep]
              refine ⟨elapsed + cfg.pollingInterval, rfl, hA, by omega, ?_⟩
              cases hasCb <;> simp [isLatePoll, hA]
        · obtain ⟨e, houtcome, he1, he2, hcount⟩ :=
            ih (elapsed + cfg.pollingInterval) (attempts + 1) (by omega)
              (by
                rw [if_neg (by omega : ¬ attempts = 0)] at hfuel
                rw [if_neg (by omega : ¬ attempts + 1 = 0)]
                omega)
          refine ⟨e, houtcome, he1, he2, ?_⟩
          rw [List.filter_append, List.length_append]
          have hhead : ((LoopEvent.poll (elapsed + cfg.pollingInterval) ::
              (if hasCb then
                [LoopEvent.progress (provider (elapsed + cfg.pollingInterval))
                  (min 95 ((elapsed + cfg.pollingInterval) * 100 / cfg.maxPollingTime))
                  (elapsed + cfg.pollingInterval)]
              else [])).filter (isLatePoll t0)).length = 0 := by
            cases hasCb <;> simp [isLatePoll, hA]
          omega
      · have hpt : pollTime cfg elapsed attempts = elapsed := by
          simp [pollTime, ha]
        rw [hpt]
        obtain ⟨e, houtcome, he1, he2, hcount⟩ :=
          ih elapsed (attempts + 1) hel (by
            rw [if_pos (by omega : attempts = 0)] at hfuel
            rw [if_neg (by omega : ¬ attempts + 1 = 0)]
            omega)
        refine ⟨e, houtcome, he1, he2, ?_⟩
        rw [List.filter_append, List.length_append]
        have hhead : ((LoopEvent.poll elapsed ::
            (if hasCb then
              [LoopEvent.progress (provider elapsed)
                (min 95 (elapsed * 100 / cfg.maxPollingTime)) elapsed]
            else [])).filter (isLatePoll t0)).length = 0 := by
          cases hasCb <;> simp [isLatePoll] <;> omega
        omega

/-- C4 (amended): when cancellation is requested at elapsed time `t0`
mid-loop (with a never-terminal provider and enough budget left), the loop
raises the cancellation error at an elapsed time `e` with
`t0 ≤ e < t0 + pollingInterval` — within one polling interval of the request —
but, because the abort check sits only at the top of each cycle (before the
sleep, not again between sleep and poll), **at most one** further status poll
may still be issued at or after the request; it is not guaranteed that no
poll follows the request (see the counterexample). -/
theorem pollForCompletion_cancel_prompt (cfg : LoopConfig) (provider : Nat → PollingStatus)
    (hasCallback : Bool) (t0 : Nat) (hi : 0 < cfg.pollingInterval)
    (hnt : neverTerminal provider)
    (hbudget : t0 + cfg.pollingInterval ≤ cfg.maxPollingTime) :
    ∃ e, (pollForCompletion cfg provider (some t0) hasCallback).1 =
        LoopOutcome.cancelled e ∧ t0 ≤ e ∧ e < t0 + cfg.pollingInterval ∧
      ((pollForCompletion cfg provider (some t0) hasCallback).2.filter
        (isLatePoll t0)).length ≤ 1 := by
  unfold pollForCompletion
  by_cases ht0 : t0 = 0
  · subst ht0
    have hF : cfg.maxPollingTime / cfg.pollingInterval + 3 =
        (cfg.maxPollingTime / cfg.pollingInterval + 2) + 1 := rfl
    rw [hF]
    rw [pollLoop_succ_cancel cfg provider (some 0) hasCallback _ 0 0 (by omega)
      (by simp [isAborted])]
    exact ⟨0, rfl, Nat.le_refl 0, by omega, by simp⟩
  · apply pollLoop_cancel_reaches cfg provider hasCallback t0 hi hnt hbudget
    · omega
    · have hdm := Nat.div_add_mod cfg.maxPollingTime cfg.pollingInterval
      have hmod := Nat.mod_lt cfg.maxPollingTime hi
      have hexp : (cfg.maxPollingTime / cfg.pollingInterval + 3) * cfg.pollingInterval =
          cfg.pollingInterval * (cfg.maxPollingTime / cfg.pollingInterval) +
            3 * cfg.pollingInterval := by ring
      rw [hexp]
      split_ifs <;> omega

/-- C4 witness: the prompt-cancellation theorem applied at the concrete
configuration of the counterexample (cancel requested at t = 2500 ms). -/
theorem pollForCompletion_cancel_prompt_witness :
    ∃ e, (pollForCompletion { maxPollingTime := 20000, pollingInterval := 5000 }
        (fun _ => { status := GenerationStatus.processing }) (some 2500) false).1 =
        LoopOutcome.cancelled e ∧ 2500 ≤ e ∧ e < 2500 + 5000 ∧
      ((pollForCompletion { maxPollingTime := 20000, pollingInterval := 5000 }
          (fun _ => { status := GenerationStatus.processing }) (some 2500) false).2.filter
        (isLatePoll 2500)).length ≤ 1 :=
  pollForCompletion_cancel_prompt { maxPollingTime := 20000, pollingInterval := 5000 }
    (fun _ => { status := GenerationStatus.processing }) false 2500 (by decide)
    (fun _ => Or.inr rfl) (by decide)

end LogoHolidays
